import Mathlib

/-!
Shallow embedding of the telekick bot (src/main.go, src/unnamed/part_000,
src/unnamed/part_001) and verification of the specification's claims.

The program keeps, per chat member, a record with the unix timestamp of the
member's last message.  An Activity Recorder translates inbound telegram
updates into store mutations, and an Eviction Scanner periodically bans
members whose record is older than a configured duration, with a one-shot
chat-migration fallback in the ban call.

External collaborators (the MongoDB store backend behind mgo, the telegram
bot API behind telebot) are modelled as explicit oracles or pure state:
queries and selectors are translated from the source, and the backend
semantics of the store follows the spec's Activity Store contract (section
4.1).  Wall-clock reads become explicit integer parameters.
-/

namespace Telekick

/-- The persisted record, `type User struct` of src/main.go:21-24:
`user_id` and `last_message` (unix seconds), both Go int64. -/
structure User where
  UserID : Int
  LastMessage : Int
deriving DecidableEq, Repr

/-- A telegram user as used by the program: only its numeric id. -/
structure TUser where
  ID : Int
deriving DecidableEq, Repr

/-- The fields of a telebot message that `handle` inspects. -/
structure TMessage where
  Text : String
  Sender : Option TUser
  UserLeft : Option TUser
  UserJoined : Option TUser
deriving DecidableEq, Repr

/-- A telebot update: `handle` only looks at its `Message` field. -/
structure TUpdate where
  Message : Option TMessage
deriving DecidableEq, Repr

/-! ## The ban call (src/main.go:262-295, src/unnamed/part_000:178-211) -/

/-- The parameter map sent to the `banChatMember` raw API call: the Go code
builds `map[string]string` with exactly these three keys. -/
structure BanRequest where
  chat_id : String
  user_id : String
  until_date : String
deriving DecidableEq, Repr

/-- The response body of `bot.Raw`, as seen by `ban` after
`json.Unmarshal` into the anonymous migrations struct: either the body does
not parse (`Unmarshal` returns an error), or it parses and yields a
`parameters.migrate_to_chat_id` value (0 when the field is absent). -/
inductive Payload where
  | malformed
  | parsed (migrate_to_chat_id : Int)
deriving DecidableEq, Repr

/-- Outcome of one `bot.Raw("banChatMember", params)` call: the response
body `data` and the Go error (`none` = success). -/
structure RawResult where
  data : Payload
  err : Option String
deriving DecidableEq, Repr

/-- Builds the parameter map of src/main.go:263-267 and 283-287: the chat
id (via `chat.Recipient()` resp. `fmt.Sprint`), the member id
(`strconv.FormatInt`), and the permanent-duration sentinel
(`telebot.Forever()`), all rendered in decimal. -/
def banReq (chatID forever user : Int) : BanRequest :=
  { chat_id := toString chatID
    user_id := toString user
    until_date := toString forever }

/-- `Watcher.ban` of src/main.go:262-295.  `raw` is the telegram API
oracle.  Returns the list of `banChatMember` requests issued, in order, and
the Go error the function returns (`none` = nil).  The primary request goes
to the configured chat; on failure the error body is unmarshalled, an
unparseable body returns the original error, a non-zero
`migrate_to_chat_id` triggers exactly one retry against the migrated chat
returning that retry's error, and otherwise the function falls through to
`return nil`. -/
def ban (raw : BanRequest → RawResult) (chatID forever user : Int) :
    List BanRequest × Option String :=
  let params := banReq chatID forever user
  let r := raw params
  match r.err with
  | none => ([params], none)
  | some banErr =>
    match r.data with
    | .malformed => ([params], some banErr)
    | .parsed migrateID =>
      if migrateID ≠ 0 then
        let params2 := banReq migrateID forever user
        ([params, params2], (raw params2).err)
      else
        ([params], none)

/-- A telegram oracle for concrete runs: chat "1" fails reporting a
migration to chat 999; any other chat succeeds. -/
def rawMigrating : BanRequest → RawResult := fun req =>
  if req.chat_id = "1" then { data := .parsed 999, err := some "group chat was upgraded" }
  else { data := .parsed 0, err := none }

/-- A telegram oracle whose ban always fails with a payload that parses but
carries no migration directive. -/
def rawPlainFailure : BanRequest → RawResult := fun _ =>
  { data := .parsed 0, err := some "bad request: user is an administrator" }

end Telekick

namespace Telekick

/-- C2: if the primary ban request fails and its payload parses to a
non-zero `migrate_to_chat_id` X, then exactly one retry is issued, against
chat id X with the same member id and the same permanent-duration sentinel,
and `ban` returns that retry's outcome. -/
theorem ban_migration_retry (raw : BanRequest → RawResult)
    (chatID forever user X : Int) (e : String)
    (herr : (raw (banReq chatID forever user)).err = some e)
    (hdata : (raw (banReq chatID forever user)).data = .parsed X)
    (hX : X ≠ 0) :
    ban raw chatID forever user =
      ([banReq chatID forever user, banReq X forever user],
        (raw (banReq X forever user)).err) := by
  simp [ban, herr, hdata, hX]

/-- Witness for C2: with the `rawMigrating` oracle, banning user 42 in chat
1 issues the primary request and exactly one retry against chat 999 and
returns the retry's (successful) outcome. -/
theorem ban_migration_retry_witness :
    ban rawMigrating 1 86400 42 =
      ([banReq 1 86400 42, banReq 999 86400 42],
        (rawMigrating (banReq 999 86400 42)).err) :=
  ban_migration_retry rawMigrating 1 86400 42 999 "group chat was upgraded"
    rfl rfl (by decide)

/-- C1 (code bug): when the primary ban fails and the error payload parses
without a migration directive (`migrate_to_chat_id = 0`), `ban` falls
through to `return nil`: it returns success, not the original failure
demanded by the spec.  (Only the unparseable-payload branch returns the
original error.) -/
theorem ban_swallows_error_without_migration :
    ban rawPlainFailure 1 86400 42 = ([banReq 1 86400 42], none) := rfl

/-! ## The activity store

The store is the mgo collection `chat`; its documents are `User` records,
modelled as the list of documents.  The selectors and update documents are
translated from the source; the backend semantics of the mutations follows
the spec's Activity Store contract (section 4.1), since MongoDB itself is
an external collaborator. -/

/-- Modelled from the spec: the store backend's `remove` (section 4.1)
behind `store.Remove(bson.M{"user_id": id})` of src/main.go:158-160 —
deletes the (single) matching record if present, and is a no-op if
absent. -/
def removeUser : List User → Int → List User
  | [], _ => []
  | u :: us, id => if u.UserID = id then us else u :: removeUser us id

/-- Modelled from the spec: the store backend's `upsert` (section 4.1)
behind `store.Upsert(bson.M{"user_id": user}, bson.M{"$set": ...})` of
src/main.go:184-192 — overwrites the matching record's fields with the
given id and timestamp if present, otherwise inserts a new record. -/
def upsertUser : List User → Int → Int → List User
  | [], id, now => [{ UserID := id, LastMessage := now }]
  | u :: us, id, now =>
    if u.UserID = id then { UserID := id, LastMessage := now } :: us
    else u :: upsertUser us id now

/-! ## The activity recorder (src/main.go:140-221) -/

/-- A store mutation issued by the recorder, for tracing which calls
`handle` makes. -/
inductive StoreCall where
  | upsert (id now : Int)
  | remove (id : Int)
deriving DecidableEq, Repr

/-- A log line emitted by the recorder, as structured entries:
`infoRemoveUser` for src/main.go:156, `infoUpdateUser` for
src/main.go:182.  `errorEntry` stands for any error-level line. -/
inductive LogEntry where
  | infoRemoveUser (id : Int)
  | infoUpdateUser (id now : Int)
  | errorEntry (msg : String)
deriving DecidableEq, Repr

/-- Per-event environment of `handle`: the wall clock read by
`updateLastMessage`, injected failures of the two store mutations (`none` =
the mutation succeeds), and the outcomes of the collaborator calls made by
the diagnostic `/when` branch (`listTimestamps` and `bot.Send`). -/
structure HandleEnv where
  now : Int
  removeErr : Option String
  upsertErr : Option String
  whenEntries : Except String String
  sendErr : Option String
deriving Repr

/-- What one `handle` call produced: the store afterwards, the store
mutation calls issued, the log entries emitted, and the returned Go
error. -/
structure HandleResult where
  store : List User
  calls : List StoreCall
  logs : List LogEntry
  err : Option String
deriving DecidableEq, Repr

/-- `Watcher.updateLastMessage` of src/main.go:179-198: logs the update,
issues the upsert with `now`, and wraps a store failure in
"update user". -/
def updateLastMessage (env : HandleEnv) (store : List User) (id : Int) :
    HandleResult :=
  let logs := [LogEntry.infoUpdateUser id env.now]
  match env.upsertErr with
  | some e => { store := store, calls := [.upsert id env.now], logs := logs,
                err := some ("update user: " ++ e) }
  | none => { store := upsertUser store id env.now,
              calls := [.upsert id env.now], logs := logs, err := none }

/-- `Watcher.handle` of src/main.go:140-177.  A nil message is ignored;
the texts "/when" and "q" are answered with the diagnostic report (no
store mutation); a member-left payload triggers the record removal; a
member-joined payload triggers an upsert for the joined member; otherwise
a message with a sender triggers an upsert for the sender; an event with
none of these is ignored. -/
def handle (env : HandleEnv) (store : List User) (update : TUpdate) :
    HandleResult :=
  match update.Message with
  | none => { store := store, calls := [], logs := [], err := none }
  | some msg =>
    if msg.Text = "/when" ∨ msg.Text = "q" then
      match env.whenEntries with
      | .error e => { store := store, calls := [], logs := [], err := some e }
      | .ok _entries =>
        { store := store, calls := [], logs := [], err := env.sendErr }
    else
      match msg.UserLeft with
      | some left =>
        let logs := [LogEntry.infoRemoveUser left.ID]
        match env.removeErr with
        | some e => { store := store, calls := [.remove left.ID], logs := logs,
                      err := some ("remove user: " ++ e) }
        | none => { store := removeUser store left.ID,
                    calls := [.remove left.ID], logs := logs, err := none }
      | none =>
        match msg.UserJoined with
        | some joined => updateLastMessage env store joined.ID
        | none =>
          match msg.Sender with
          | none => { store := store, calls := [], logs := [], err := none }
          | some sender => updateLastMessage env store sender.ID

/-- The consumption loop of `Watcher.Record`, src/main.go:216-218:
`for update := range updates { watcher.handle(update) }` — each event is
handled with its own environment, the handle error is discarded, and the
loop continues with the next event.  Returns the final store and the
concatenated log entries. -/
def recordLoop : List (HandleEnv × TUpdate) → List User →
    List User × List LogEntry
  | [], store => (store, [])
  | (env, u) :: rest, store =>
    let r := handle env store u
    let rec2 := recordLoop rest r.store
    (rec2.1, r.logs ++ rec2.2)

/-- An environment for concrete recorder runs: clock at 50, both store
mutations succeed, the diagnostic report succeeds. -/
def envOk : HandleEnv :=
  { now := 50, removeErr := none, upsertErr := none,
    whenEntries := .ok "report", sendErr := none }

/-- An environment in which the store's remove mutation fails. -/
def envFailRemove : HandleEnv :=
  { now := 50, removeErr := some "connection reset", upsertErr := none,
    whenEntries := .ok "report", sendErr := none }

/-- Helper: `removeUser` leaves the store unchanged when no record carries
the removed id. -/
theorem removeUser_of_absent (store : List User) (id : Int)
    (h : ∀ u ∈ store, u.UserID ≠ id) : removeUser store id = store := by
  induction store with
  | nil => rfl
  | cons u us ih =>
    have hu : u.UserID ≠ id := h u (List.mem_cons_self u us)
    simp only [removeUser, if_neg hu]
    rw [ih fun v hv => h v (List.mem_cons_of_mem u hv)]

/-- C5 (amended): a message event with an identifiable sender, no
member-left and no member-joined payload, and a text other than "/when"
and "q", issues exactly the upsert of the sender's id at the current
clock. -/
theorem handle_message_upserts_sender (env : HandleEnv) (store : List User)
    (msg : TMessage) (s : TUser)
    (hw : msg.Text ≠ "/when") (hq : msg.Text ≠ "q")
    (hl : msg.UserLeft = none) (hj : msg.UserJoined = none)
    (hs : msg.Sender = some s) :
    (handle env store { Message := some msg }).calls =
      [StoreCall.upsert s.ID env.now] := by
  cases h : env.upsertErr <;>
    simp [handle, updateLastMessage, hw, hq, hl, hj, hs, h]

/-- Witness for C5 (amended): a plain message "hello" from sender 5 issues
exactly the upsert of id 5 at clock 50. -/
theorem handle_message_upserts_sender_witness :
    (handle envOk []
      { Message := some { Text := "hello", Sender := some ⟨5⟩,
                          UserLeft := none, UserJoined := none } }).calls =
      [StoreCall.upsert 5 50] :=
  handle_message_upserts_sender envOk []
    { Text := "hello", Sender := some ⟨5⟩, UserLeft := none, UserJoined := none }
    ⟨5⟩ (by decide) (by decide) rfl rfl rfl

/-- Counterexample to C5 as stated: the message "/when" carries an
identifiable sender (id 5) and no join or leave payload, yet `handle`
issues no upsert at all — the command branch of src/main.go:145-153 runs
first and returns without touching the store. -/
theorem handle_when_command_no_upsert :
    handle envOk []
      { Message := some { Text := "/when", Sender := some ⟨5⟩,
                          UserLeft := none, UserJoined := none } } =
      { store := [], calls := [], logs := [], err := none } := rfl

/-- C6: a member-left event (text not a command) for a member with no
record in the store is handled without error and leaves the store
unchanged: the backend's remove is a no-op on an absent record. -/
theorem handle_left_absent_noop (env : HandleEnv) (store : List User)
    (msg : TMessage) (l : TUser)
    (hw : msg.Text ≠ "/when") (hq : msg.Text ≠ "q")
    (hl : msg.UserLeft = some l)
    (henv : env.removeErr = none)
    (habs : ∀ u ∈ store, u.UserID ≠ l.ID) :
    handle env store { Message := some msg } =
      { store := store, calls := [StoreCall.remove l.ID],
        logs := [LogEntry.infoRemoveUser l.ID], err := none } := by
  simp [handle, hw, hq, hl, henv, removeUser_of_absent store l.ID habs]

/-- Witness for C6: member 7 leaves while the store only holds a record
for member 9 — the event is handled without error, store unchanged. -/
theorem handle_left_absent_noop_witness :
    handle envOk [{ UserID := 9, LastMessage := 10 }]
      { Message := some { Text := "", Sender := none,
                          UserLeft := some ⟨7⟩, UserJoined := none } } =
      { store := [{ UserID := 9, LastMessage := 10 }],
        calls := [StoreCall.remove 7],
        logs := [LogEntry.infoRemoveUser 7], err := none } :=
  handle_left_absent_noop envOk [{ UserID := 9, LastMessage := 10 }]
    { Text := "", Sender := none, UserLeft := some ⟨7⟩, UserJoined := none }
    ⟨7⟩ (by decide) (by decide) rfl rfl (by decide)

/-- C10 (amended): for events whose text is not "/when" and not "q", a
member-left payload triggers exactly the record removal (never an upsert),
whatever the sender or joined fields hold; and with no member-left
payload, a member-joined payload triggers exactly the upsert of the joined
member's id, whatever the sender field holds. -/
theorem handle_left_over_join_over_sender :
    (∀ (env : HandleEnv) (store : List User) (msg : TMessage) (l : TUser),
      msg.Text ≠ "/when" → msg.Text ≠ "q" → msg.UserLeft = some l →
      (handle env store { Message := some msg }).calls =
        [StoreCall.remove l.ID]) ∧
    (∀ (env : HandleEnv) (store : List User) (msg : TMessage) (j : TUser),
      msg.Text ≠ "/when" → msg.Text ≠ "q" → msg.UserLeft = none →
      msg.UserJoined = some j →
      (handle env store { Message := some msg }).calls =
        [StoreCall.upsert j.ID env.now]) := by
  constructor
  · intro env store msg l hw hq hl
    cases h : env.removeErr <;> simp [handle, hw, hq, hl, h]
  · intro env store msg j hw hq hl hj
    cases h : env.upsertErr <;>
      simp [handle, updateLastMessage, hw, hq, hl, hj, h]

/-- Witness for C10 (amended): an event carrying a left member (3), a
joined member (4) and a sender (9) issues only the removal of 3; an event
carrying a joined member (4) and a sender (9) issues only the upsert of
4. -/
theorem handle_left_over_join_over_sender_witness :
    (handle envOk []
      { Message := some { Text := "x", Sender := some ⟨9⟩,
                          UserLeft := some ⟨3⟩, UserJoined := some ⟨4⟩ } }).calls =
      [StoreCall.remove 3] ∧
    (handle envOk []
      { Message := some { Text := "x", Sender := some ⟨9⟩,
                          UserLeft := none, UserJoined := some ⟨4⟩ } }).calls =
      [StoreCall.upsert 4 50] :=
  ⟨handle_left_over_join_over_sender.1 envOk []
    { Text := "x", Sender := some ⟨9⟩, UserLeft := some ⟨3⟩, UserJoined := some ⟨4⟩ }
    ⟨3⟩ (by decide) (by decide) rfl,
   handle_left_over_join_over_sender.2 envOk []
    { Text := "x", Sender := some ⟨9⟩, UserLeft := none, UserJoined := some ⟨4⟩ }
    ⟨4⟩ (by decide) (by decide) rfl rfl⟩

/-- Counterexample to C10 as stated: an event carrying a member-left
payload (member 3) whose text is "/when" performs no record removal at
all — the command branch of src/main.go:145-153 precedes the member-left
check. -/
theorem handle_left_when_command_no_removal :
    handle envOk [{ UserID := 3, LastMessage := 10 }]
      { Message := some { Text := "/when", Sender := some ⟨9⟩,
                          UserLeft := some ⟨3⟩, UserJoined := none } } =
      { store := [{ UserID := 3, LastMessage := 10 }], calls := [],
        logs := [], err := none } := rfl

/-- C8 (amended): the recorder loop always consumes the whole stream — on
any split of the event stream, the loop's final store and log output are
those of running the first part and then the second, regardless of
handling failures in the first part; the per-event handling error is
discarded by the loop and nothing is logged in its place. -/
theorem recordLoop_consumes_whole_stream
    (es1 es2 : List (HandleEnv × TUpdate)) (store : List User) :
    recordLoop (es1 ++ es2) store =
      ((recordLoop es2 (recordLoop es1 store).1).1,
        (recordLoop es1 store).2 ++ (recordLoop es2 (recordLoop es1 store).1).2) := by
  induction es1 generalizing store with
  | nil => simp [recordLoop]
  | cons e rest ih =>
    obtain ⟨env, u⟩ := e
    simp [recordLoop, ih]

/-- Counterexample to C8 as stated: member 7's leave event fails in the
store (handle returns an error), the loop continues — the following
message event from member 8 is still processed — but the failure is never
logged: the run's log output holds only the two info lines, no error-level
entry. -/
theorem recordLoop_failure_not_logged :
    (handle envFailRemove []
      { Message := some { Text := "", Sender := none,
                          UserLeft := some ⟨7⟩, UserJoined := none } }).err =
      some ("remove user: " ++ "connection reset") ∧
    recordLoop
      [(envFailRemove,
        { Message := some { Text := "", Sender := none,
                            UserLeft := some ⟨7⟩, UserJoined := none } }),
       (envOk,
        { Message := some { Text := "hi", Sender := some ⟨8⟩,
                            UserLeft := none, UserJoined := none } })] [] =
      ([{ UserID := 8, LastMessage := 50 }],
        [LogEntry.infoRemoveUser 7, LogEntry.infoUpdateUser 8 50]) :=
  ⟨rfl, rfl⟩

/-! ## The eviction scanner (src/main.go:223-260) -/

/-- The count query of src/main.go:227-231: documents whose
`last_message` is `$gt` (strictly greater than) the threshold. -/
def countActive (store : List User) (threshold : Int) : Nat :=
  (store.filter (fun u => threshold < u.LastMessage)).length

/-- The stale query of src/main.go:242-247: documents whose
`last_message` is `$lt` (strictly less than) the threshold. -/
def findStale (store : List User) (threshold : Int) : List User :=
  store.filter (fun u => u.LastMessage < threshold)

/-- Modelled from the spec's words (section 4.1): `count_active`
"returns count of records with `last_activity >= threshold_timestamp`" —
written for comparison against the source's `countActive`. -/
def countActiveSpec (store : List User) (threshold : Int) : Nat :=
  (store.filter (fun u => threshold ≤ u.LastMessage)).length

/-- Environment of one scan cycle: the two wall-clock reads (the code
calls `time.Now()` once per query), an injected failure of the count query
and of the stale query (`none` = success), and the contents the failed
stale query's decode leaves in the `users` slice (the code reads the slice
whether or not the query failed). -/
structure ScanEnv where
  now1 : Int
  now2 : Int
  countErr : Option String
  staleErr : Option String
  staleOnErr : List User
deriving Repr

/-- How one scan cycle ends: a fatal log (process termination), a skipped
cycle (guard fired, sleep), or a pass over the candidates, carrying the
ids for which the ban action was invoked. -/
inductive CycleOutcome where
  | fatal (msg : String)
  | skipped
  | acted (banned : List Int)
deriving DecidableEq, Repr

/-- One iteration of the `for` loop of `Watcher.WatchKick`,
src/main.go:226-259.  A count-query failure is `log.Fatalf` (fatal); a
zero count skips the cycle; otherwise the stale query runs — its error is
assigned to `err` but never checked, so on failure the loop ranges over
whatever the decode left in `users` — and the ban action is invoked for
each listed user (ban failures are only logged).  The second component is
the store afterwards: the cycle issues no store mutation. -/
def watchKickCycle (env : ScanEnv) (duration : Int) (store : List User) :
    CycleOutcome × List User :=
  match env.countErr with
  | some e => (.fatal ("find messages: " ++ e), store)
  | none =>
    if countActive store (env.now1 - duration) = 0 then
      (.skipped, store)
    else
      let users :=
        match env.staleErr with
        | some _ => env.staleOnErr
        | none => findStale store (env.now2 - duration)
      (.acted (users.map (fun u => u.UserID)), store)

/-- C3: when the count query succeeds and reports zero records above the
staleness threshold, the cycle is skipped entirely — no stale-candidate
result is acted on and no ban is invoked. -/
theorem watchKickCycle_guard_skips (env : ScanEnv) (duration : Int)
    (store : List User)
    (hc : env.countErr = none)
    (h0 : countActive store (env.now1 - duration) = 0) :
    watchKickCycle env duration store = (.skipped, store) := by
  simp [watchKickCycle, hc, h0]

/-- Witness for C3: a store holding only a stale record (so the stale
query would return it) still yields a skipped cycle, because the count of
records above the threshold is zero. -/
theorem watchKickCycle_guard_skips_witness :
    watchKickCycle
      { now1 := 100, now2 := 100, countErr := none, staleErr := none,
        staleOnErr := [] } 10 [{ UserID := 7, LastMessage := 0 }] =
      (.skipped, [{ UserID := 7, LastMessage := 0 }]) :=
  watchKickCycle_guard_skips
    { now1 := 100, now2 := 100, countErr := none, staleErr := none,
      staleOnErr := [] } 10 [{ UserID := 7, LastMessage := 0 }]
    rfl (by decide)

/-- C4 (amended): the scanner's active count counts exactly the records
with `last_message` strictly greater than the threshold — equivalently the
spec's at-least count taken at threshold + 1 — and a record whose
`last_message` equals the threshold is not counted. -/
theorem countActive_counts_strictly_above (store : List User) (t id : Int) :
    countActive store t = countActiveSpec store (t + 1) ∧
    countActive ({ UserID := id, LastMessage := t } :: store) t =
      countActive store t := by
  constructor
  · have h : store.filter (fun u => decide (t < u.LastMessage)) =
        store.filter (fun u => decide (t + 1 ≤ u.LastMessage)) :=
      List.filter_congr (fun u _ => decide_eq_decide.mpr Int.lt_iff_add_one_le)
    simpa [countActive, countActiveSpec] using congrArg List.length h
  · simp [countActive, List.filter_cons]

/-- Counterexample to C4 as stated: a single record whose `last_message`
equals the threshold — the claim counts it (the spec's `>=` count is 1),
the code's `$gt` query does not (the count is 0). -/
theorem countActive_boundary_record_not_counted :
    countActive [{ UserID := 1, LastMessage := 100 }] 100 = 0 ∧
    countActiveSpec [{ UserID := 1, LastMessage := 100 }] 100 = 1 := by
  decide

/-- C7 (code bug): a cycle in which the count query succeeds (one active
record) but the stale query fails with an i/o error does not end fatally —
the error is assigned to `err` at src/main.go:243 and never checked, and
the cycle proceeds over the (here empty) decoded slice. -/
theorem watchKickCycle_ignores_stale_query_error :
    watchKickCycle
      { now1 := 50, now2 := 50, countErr := none,
        staleErr := some "i/o timeout", staleOnErr := [] } 10
      [{ UserID := 1, LastMessage := 100 }] =
      (.acted [], [{ UserID := 1, LastMessage := 100 }]) := rfl

/-- C9 (amended): a scan cycle never mutates the store, and whenever both
queries succeed and the active-count guard passes, every member whose
record is below the staleness threshold is among the ids the cycle bans —
so a member who stays stale and never leaves is re-banned in every cycle
whose guard passes. -/
theorem watchKickCycle_frame_and_reban (env : ScanEnv) (duration : Int)
    (store : List User) (u : User)
    (hc : env.countErr = none) (hs : env.staleErr = none)
    (hmem : u ∈ store) (hstale : u.LastMessage < env.now2 - duration)
    (hactive : countActive store (env.now1 - duration) ≠ 0) :
    watchKickCycle env duration store =
      (.acted ((findStale store (env.now2 - duration)).map (fun v => v.UserID)),
        store) ∧
    u.UserID ∈ (findStale store (env.now2 - duration)).map (fun v => v.UserID) := by
  constructor
  · simp [watchKickCycle, hc, hs, hactive]
  · exact List.mem_map_of_mem _
      (List.mem_filter.mpr ⟨hmem, decide_eq_true hstale⟩)

/-- Witness for C9 (amended): with an active member 8 keeping the guard
open, the stale member 7 is banned by the cycle and its record survives
the cycle unchanged. -/
theorem watchKickCycle_frame_and_reban_witness :
    watchKickCycle
      { now1 := 100, now2 := 100, countErr := none, staleErr := none,
        staleOnErr := [] } 10
      [{ UserID := 7, LastMessage := 0 }, { UserID := 8, LastMessage := 95 }] =
      (.acted ((findStale
          [{ UserID := 7, LastMessage := 0 }, { UserID := 8, LastMessage := 95 }]
          (100 - 10)).map (fun v => v.UserID)),
        [{ UserID := 7, LastMessage := 0 }, { UserID := 8, LastMessage := 95 }]) ∧
    (7 : Int) ∈ (findStale
        [{ UserID := 7, LastMessage := 0 }, { UserID := 8, LastMessage := 95 }]
        (100 - 10)).map (fun v => v.UserID) :=
  watchKickCycle_frame_and_reban
    { now1 := 100, now2 := 100, countErr := none, staleErr := none,
      staleOnErr := [] } 10
    [{ UserID := 7, LastMessage := 0 }, { UserID := 8, LastMessage := 95 }]
    { UserID := 7, LastMessage := 0 }
    rfl rfl (by decide) (by decide) (by decide)

/-- Counterexample to C9 as stated: member 7 is stale (its record, 0, is
below the threshold 100 - 10) and never left, yet this cycle bans nobody —
the store holds no record above the threshold, so the guard skips the
cycle. -/
theorem watchKickCycle_stale_member_skipped_by_guard :
    ((0 : Int) < 100 - 10) ∧
    watchKickCycle
      { now1 := 100, now2 := 100, countErr := none, staleErr := none,
        staleOnErr := [] } 10 [{ UserID := 7, LastMessage := 0 }] =
      (.skipped, [{ UserID := 7, LastMessage := 0 }]) := by
  decide

end Telekick
